import Mathlib

/-!
Shallow embedding of the contact-form backend of the `tanja` repository.

The repository contains several near-duplicate serverless handlers:
* `src/unnamed/part_000` (also `part_001`): Cloudflare Pages function with a
  Resend primary provider and a MailChannels fallback (`onRequestPost`,
  `sendViaResend`, `sendViaMailChannels`, `sanitizeErrorText`, `escapeHtml`).
* `src/functions/api/contact.js`: Cloudflare worker variant with a single
  MailChannels provider, an optional reCAPTCHA gate and a stricter
  message-length rule.
* `src/unnamed/part_004`: Pages function with a single anonymous MailChannels
  provider.
* `src/unnamed/part_002`: a PHP variant (its OPTIONS preflight block) plus the
  worker router.

Outbound HTTP calls (`fetch`) are modelled as oracle inputs: a `FetchOutcome`
is either a response with a status and body text, or a thrown
network/transport exception carrying its stringified message.  Handlers return
the JSON envelope (status, success flag, message, optional details) together
with the list of external HTTP calls actually issued, so that "no provider
call is made" style properties are expressible.
-/

/-- JavaScript whitespace is modelled by `Char.isWhitespace` (space, tab, CR,
LF); the claims only exercise these characters. -/
def trimChars (l : List Char) : List Char :=
  ((l.dropWhile Char.isWhitespace).reverse.dropWhile Char.isWhitespace).reverse

/-- Model of JavaScript `String.prototype.trim`, as applied to every form
field in all handler variants. -/
def jsTrim (s : String) : String := String.mk (trimChars s.data)

/-- Model of the regex replacement `replace(/\s+/g, ' ')`: each maximal run of
whitespace becomes a single space. -/
def squeezeSpaces : List Char → List Char
  | [] => []
  | [c] => [if c.isWhitespace then ' ' else c]
  | c :: d :: rest =>
      if c.isWhitespace && d.isWhitespace then squeezeSpaces (d :: rest)
      else (if c.isWhitespace then ' ' else c) :: squeezeSpaces (d :: rest)

/-- Embeds `sanitizeErrorText` (part_000 lines 282-284, contact.js lines
256-258): collapse whitespace runs, trim, and keep at most 220 characters. -/
def sanitizeErrorText (t : String) : String :=
  String.mk ((trimChars (squeezeSpaces t.data)).take 220)

/-- Embeds JavaScript `Array.prototype.join(sep)`. -/
def joinSep (sep : String) : List String → String
  | [] => ""
  | [s] => s
  | s :: rest => s ++ sep ++ joinSep sep rest

/-- Embeds `[...].filter(Boolean)` on a list of possibly-undefined strings:
keep only present, non-empty entries. -/
def filterTruthy (l : List (Option String)) : List String :=
  l.filterMap fun o =>
    match o with
    | none => none
    | some s => if s = "" then none else some s

/-- Decidable substring test over character lists, used to state that a
provider failure reason does not appear in a user-facing message. -/
def listContains (hay needle : List Char) : Bool :=
  (List.range (hay.length + 1)).any fun i =>
    ((hay.drop i).take needle.length) == needle

/-- Character class `[^\s@]` of the email regex. -/
def isAtomChar (c : Char) : Bool := !c.isWhitespace && !(c = '@')

/-- Embeds the test of `/^[^\s@]+@[^\s@]+\.[^\s@]+$/` (identical in all JS
handler variants): the character list decomposes as a nonempty atom run, `@`,
a nonempty atom run, `.`, and a final nonempty atom run. -/
def emailRegexTest (s : String) : Bool :=
  let xs := s.data
  let n := xs.length
  (List.range n).any fun i =>
    (List.range n).any fun j =>
      decide (1 ≤ i) && decide (i + 2 ≤ j) && decide (j + 1 < n) &&
      (xs.take i).all isAtomChar &&
      (xs.getD i ' ' == '@') &&
      (((xs.drop (i + 1)).take (j - i - 1)).all isAtomChar) &&
      (xs.getD j ' ' == '.') &&
      ((xs.drop (j + 1)).all isAtomChar)

/-- The apostrophe character escaped by `escapeHtml`. -/
def apos : Char := Char.ofNat 39

/-- Embeds one global single-character regex replacement
`replace(/c/g, rep)`. -/
def replaceAllChar (c : Char) (rep : List Char) : List Char → List Char
  | [] => []
  | x :: xs => (if x == c then rep else [x]) ++ replaceAllChar c rep xs

/-- Embeds `escapeHtml` (part_000 lines 286-293, contact.js lines 260-267):
sequentially replace `&`, `<`, `>`, `"` and the apostrophe by their HTML
entities, in source order. -/
def escapeHtmlChars (l : List Char) : List Char :=
  replaceAllChar apos "&#039;".data
    (replaceAllChar '"' "&quot;".data
      (replaceAllChar '>' "&gt;".data
        (replaceAllChar '<' "&lt;".data
          (replaceAllChar '&' "&amp;".data l))))

/-- String-level `escapeHtml`. -/
def escapeHtml (s : String) : String := String.mk (escapeHtmlChars s.data)

/-- Embeds the HTML interpolation of the message field,
`escapeHtml(message).replace(/\n/g, '<br>')` (part_000 line 117, contact.js
line 109, part_004 line 138). -/
def messageHtmlValue (msg : String) : String :=
  String.mk (replaceAllChar '\n' "<br>".data (escapeHtml msg).data)

/-- Raw form fields as extracted by `formData.get(...) || ''`; a missing field
is the empty string, and no trimming has happened yet. -/
structure RawForm where
  vorname : String
  nachname : String
  email : String
  message : String
  privacy : String
  website : String
  recaptchaToken : String
deriving DecidableEq

/-- Validation error message for an empty first name. -/
def vornameErrMsg : String := "Bitte geben Sie Ihren Vornamen ein."

/-- Validation error message for an empty last name. -/
def nachnameErrMsg : String := "Bitte geben Sie Ihren Nachnamen ein."

/-- Validation error message for a missing or malformed email address. -/
def emailErrMsg : String := "Bitte geben Sie eine gültige E-Mail-Adresse ein."

/-- Validation error message for an empty message. -/
def messageErrMsg : String := "Bitte geben Sie eine Nachricht ein."

/-- Validation error message of the stricter variant for a too-short
message (contact.js lines 46-48). -/
def messageLenErrMsg : String := "Bitte schreiben Sie eine etwas ausführlichere Nachricht."

/-- Validation error message for a missing consent flag. -/
def privacyErrMsg : String := "Bitte stimmen Sie der Datenschutzerklärung zu."

/-- Success message of the honeypot short-circuit (identical in all JS
variants). -/
def honeypotSuccessMsg : String := "Nachricht erfolgreich gesendet."

/-- Genuine delivery success message. -/
def thankYouMsg : String :=
  "Vielen Dank! Ihre Nachricht wurde erfolgreich gesendet. Ich melde mich in Kürze bei Ihnen."

/-- User-facing message of part_000 when every provider failed (line 160). -/
def deliveryFailedMsg : String :=
  "E-Mail-Versand ist nicht korrekt eingerichtet. Bitte senden Sie direkt an info@marknate.ch."

/-- Generic message of the top-level exception handlers (part_000 line 170,
contact.js line 175, part_004 lines 167 and 177). -/
def runtimeErrMsg : String :=
  "Es gab einen Fehler beim Senden. Bitte versuchen Sie es erneut oder schreiben Sie direkt an info@marknate.ch."

/-- User-facing message of contact.js when the MailChannels call failed. -/
def cjsSendFailMsg : String := "E-Mail-Versand fehlgeschlagen."

/-- Embeds the validation block of part_000 lines 42-49 (identically present
in part_001 and part_004): the five rules are all evaluated and every
applicable error is pushed, in source order. -/
def p000Errors (f : RawForm) : List String :=
  (if jsTrim f.vorname = "" then [vornameErrMsg] else []) ++
  (if jsTrim f.nachname = "" then [nachnameErrMsg] else []) ++
  (if jsTrim f.email = "" ∨ emailRegexTest (jsTrim f.email) = false then [emailErrMsg] else []) ++
  (if jsTrim f.message = "" then [messageErrMsg] else []) ++
  (if jsTrim f.privacy = "" then [privacyErrMsg] else [])

/-- Embeds the validation block of contact.js lines 39-49: as `p000Errors`
plus the minimum-length-10 rule on a non-empty message. -/
def cjsErrors (f : RawForm) : List String :=
  (if jsTrim f.vorname = "" then [vornameErrMsg] else []) ++
  (if jsTrim f.nachname = "" then [nachnameErrMsg] else []) ++
  (if jsTrim f.email = "" ∨ emailRegexTest (jsTrim f.email) = false then [emailErrMsg] else []) ++
  (if jsTrim f.message = "" then [messageErrMsg] else []) ++
  (if jsTrim f.message ≠ "" ∧ (jsTrim f.message).length < 10 then [messageLenErrMsg] else []) ++
  (if jsTrim f.privacy = "" then [privacyErrMsg] else [])

/-- Outcome of an outbound `fetch`: either an HTTP response (status and body
text) or a thrown network/transport exception with its stringified message. -/
inductive FetchOutcome where
  | response (status : Nat) (body : String)
  | netError (err : String)
deriving DecidableEq

/-- Result shape of `sendViaResend` / `sendViaMailChannels`: `{ok}` or
`{ok, reason}`. -/
structure SendResult where
  ok : Bool
  reason : Option String
deriving DecidableEq

/-- Embeds `sendViaResend` (part_000 lines 198-229).  A falsy API key (absent
or empty, JS `!apiKey`) skips the call with a configuration-missing reason;
`response.ok` is status 200-299; a thrown fetch exception is caught and
converted into a failure reason. -/
def sendViaResend (apiKey : Option String) (fetched : FetchOutcome) : SendResult :=
  if apiKey = none ∨ apiKey = some "" then ⟨false, some "RESEND_API_KEY fehlt"⟩
  else
    match fetched with
    | .response st body =>
        if 200 ≤ st ∧ st < 300 then ⟨true, none⟩
        else ⟨false, some ("Resend " ++ (Nat.repr st ++ (": " ++ sanitizeErrorText body)))⟩
    | .netError e => ⟨false, some ("Resend request failed: " ++ e)⟩

/-- Embeds `sendViaMailChannels` (part_000 lines 231-280).  The API key only
selects an Authorization header and never gates the call; success is
`response.ok || status === 202`. -/
def sendViaMailChannels (_apiKey : Option String) (fetched : FetchOutcome) : SendResult :=
  match fetched with
  | .response st body =>
      if (200 ≤ st ∧ st < 300) ∨ st = 202 then ⟨true, none⟩
      else ⟨false, some ("MailChannels " ++ (Nat.repr st ++ (": " ++ sanitizeErrorText body)))⟩
  | .netError e => ⟨false, some ("MailChannels request failed: " ++ e)⟩

/-- JSON envelope of a handler response together with its HTTP status. -/
structure ApiResponse where
  status : Nat
  success : Bool
  message : String
  details : Option String
deriving DecidableEq

/-- External HTTP calls a handler can issue. -/
inductive ProviderCall where
  | resend
  | mailchannels
  | recaptcha
deriving DecidableEq

/-- A handler run: the response plus the external HTTP calls actually made,
in order. -/
structure HandlerResult where
  response : ApiResponse
  calls : List ProviderCall
deriving DecidableEq

/-- Environment bindings consumed by part_000. -/
structure P000Env where
  CONTACT_EMAIL : Option String
  RESEND_API_KEY : Option String
  RESEND_FROM : Option String
  MAILCHANNELS_API_KEY : Option String
  MAIL_FROM : Option String
deriving DecidableEq

/-- Embeds the delivery section of part_000 `onRequestPost` (lines 128-164):
try Resend, on failure try MailChannels, on double failure aggregate the
recorded reasons with the separator into `details`.  The Resend HTTP call is
only issued when the API key is truthy. -/
def part000Delivery (env : P000Env) (resendFetch mcFetch : FetchOutcome) : HandlerResult :=
  let r := sendViaResend env.RESEND_API_KEY resendFetch
  let rCalls :=
    if env.RESEND_API_KEY = none ∨ env.RESEND_API_KEY = some "" then []
    else [ProviderCall.resend]
  if r.ok then ⟨⟨200, true, thankYouMsg, none⟩, rCalls⟩
  else
    let m := sendViaMailChannels env.MAILCHANNELS_API_KEY mcFetch
    let calls := rCalls ++ [ProviderCall.mailchannels]
    if m.ok then ⟨⟨200, true, thankYouMsg, none⟩, calls⟩
    else
      ⟨⟨500, false, deliveryFailedMsg,
          some (joinSep " | " (filterTruthy [r.reason, m.reason]))⟩, calls⟩

/-- Embeds `onRequestPost` of part_000 (lines 17-175): honeypot short-circuit,
validation with joined errors at 422, then delivery. -/
def part000Post (f : RawForm) (env : P000Env) (resendFetch mcFetch : FetchOutcome) :
    HandlerResult :=
  if jsTrim f.website ≠ "" then ⟨⟨200, true, honeypotSuccessMsg, none⟩, []⟩
  else if p000Errors f ≠ [] then ⟨⟨422, false, joinSep " " (p000Errors f), none⟩, []⟩
  else part000Delivery env resendFetch mcFetch

/-- Embeds `onRequestPost` of part_004 (lines 15-182): honeypot, validation,
then a single anonymous MailChannels call; both the non-2xx branch and the
top-level catch answer with the generic error message and no details. -/
def part004Post (f : RawForm) (mcFetch : FetchOutcome) : HandlerResult :=
  if jsTrim f.website ≠ "" then ⟨⟨200, true, honeypotSuccessMsg, none⟩, []⟩
  else if p000Errors f ≠ [] then ⟨⟨422, false, joinSep " " (p000Errors f), none⟩, []⟩
  else
    match mcFetch with
    | .netError _ => ⟨⟨500, false, runtimeErrMsg, none⟩, [ProviderCall.mailchannels]⟩
    | .response st _ =>
        if (200 ≤ st ∧ st < 300) ∨ st = 202 then
          ⟨⟨200, true, thankYouMsg, none⟩, [ProviderCall.mailchannels]⟩
        else ⟨⟨500, false, runtimeErrMsg, none⟩, [ProviderCall.mailchannels]⟩

/-- Environment bindings consumed by contact.js. -/
structure CjsEnv where
  MAILCHANNELS_API_KEY : Option String
  MAILCHANNELS_KEY : Option String
  CONTACT_EMAIL : Option String
  MAIL_FROM : Option String
  RECAPTCHA_SECRET : Option String
deriving DecidableEq

/-- Parsed JSON of the reCAPTCHA verification response: success flag, numeric
score (absent when not a number) and action label. -/
structure VerifyData where
  success : Bool
  score : Option Rat
  action : String
deriving DecidableEq

/-- Outcome of the verification `fetch`. -/
inductive RcFetch where
  | response (status : Nat) (data : VerifyData)
  | netError (err : String)
deriving DecidableEq

/-- Result shape of `verifyRecaptcha`. -/
structure RcResult where
  ok : Bool
  score : Option Rat
  message : Option String
deriving DecidableEq

/-- Embeds `verifyRecaptcha` (contact.js lines 195-247).  No secret skips the
gate; a missing token fails without any call; the fetch is not wrapped in a
try block, so a network exception escapes as `Except.error`; otherwise the
response gates on success flag, score at least one half and the expected
action label.  The second component records whether the verification HTTP
call was issued. -/
def verifyRecaptcha (secret : Option String) (token : String) (rcFetch : RcFetch) :
    Except String RcResult × List ProviderCall :=
  if secret = none ∨ secret = some "" then (Except.ok ⟨true, none, none⟩, [])
  else if token = "" then
    (Except.ok ⟨false, none,
        some "Spam-Schutz fehlgeschlagen. Bitte laden Sie die Seite neu und versuchen Sie es erneut."⟩,
      [])
  else
    match rcFetch with
    | .netError e => (Except.error e, [ProviderCall.recaptcha])
    | .response st data =>
        if ¬(200 ≤ st ∧ st < 300) then
          (Except.ok ⟨false, none,
              some "Spam-Schutz konnte nicht überprüft werden. Bitte später erneut versuchen."⟩,
            [ProviderCall.recaptcha])
        else
          if data.success = true ∧ (1 : Rat) / 2 ≤ data.score.getD 0 ∧
              data.action = "kontaktformular" then
            (Except.ok ⟨true, some (data.score.getD 0), none⟩, [ProviderCall.recaptcha])
          else
            (Except.ok ⟨false, none,
                some "Ihre Anfrage konnte aus Sicherheitsgründen nicht gesendet werden."⟩,
              [ProviderCall.recaptcha])

/-- Embeds `env.MAILCHANNELS_API_KEY || env.MAILCHANNELS_KEY || ''`
(contact.js lines 71-74). -/
def cjsApiKey (env : CjsEnv) : String :=
  match env.MAILCHANNELS_API_KEY with
  | some s =>
      if s = "" then
        match env.MAILCHANNELS_KEY with
        | some t => if t = "" then "" else t
        | none => ""
      else s
  | none =>
      match env.MAILCHANNELS_KEY with
      | some t => if t = "" then "" else t
      | none => ""

/-- Embeds `onRequestPost` of contact.js (lines 12-182): honeypot, strict
validation, reCAPTCHA gate, then a single MailChannels call whose fetch is
inside the outer try block only, so a network exception is handled by the
top-level catch (lines 171-181), which answers 500 with the generic message
and the stringified exception in `details`. -/
def cjsPost (f : RawForm) (env : CjsEnv) (rcFetch : RcFetch) (mcFetch : FetchOutcome) :
    HandlerResult :=
  if jsTrim f.website ≠ "" then ⟨⟨200, true, honeypotSuccessMsg, none⟩, []⟩
  else if cjsErrors f ≠ [] then ⟨⟨422, false, joinSep " " (cjsErrors f), none⟩, []⟩
  else
    match verifyRecaptcha env.RECAPTCHA_SECRET (jsTrim f.recaptchaToken) rcFetch with
    | (Except.error e, calls) =>
        ⟨⟨500, false, runtimeErrMsg, some ("Runtime: " ++ e)⟩, calls⟩
    | (Except.ok rc, calls) =>
        if rc.ok = false then ⟨⟨422, false, rc.message.getD "", none⟩, calls⟩
        else
          match mcFetch with
          | .netError e =>
              ⟨⟨500, false, runtimeErrMsg, some ("Runtime: " ++ e)⟩,
                calls ++ [ProviderCall.mailchannels]⟩
          | .response st body =>
              if (200 ≤ st ∧ st < 300) ∨ st = 202 then
                ⟨⟨200, true, thankYouMsg, none⟩, calls ++ [ProviderCall.mailchannels]⟩
              else
                ⟨⟨500, false, cjsSendFailMsg,
                    some ("MailChannels " ++ (Nat.repr st ++ (": " ++
                      (sanitizeErrorText body ++
                        (if cjsApiKey env = "" then
                          " Hinweis: MAILCHANNELS_API_KEY ist nicht gesetzt." else "")))))⟩,
                  calls ++ [ProviderCall.mailchannels]⟩

/-- Response of a preflight or non-POST handler: HTTP status, body and
headers. -/
structure PreflightResponse where
  status : Nat
  body : Option String
  headers : List (String × String)
deriving DecidableEq

/-- Embeds `onRequestOptions` of contact.js (lines 184-193). -/
def cjsOnRequestOptions : PreflightResponse :=
  ⟨204, none,
    [("Access-Control-Allow-Origin", "*"),
     ("Access-Control-Allow-Methods", "POST, OPTIONS"),
     ("Access-Control-Allow-Headers", "Content-Type, Accept")]⟩

/-- Embeds `onRequestOptions` of part_000 (lines 177-186; identical in
part_001 and part_004). -/
def part000OnRequestOptions : PreflightResponse :=
  ⟨204, none,
    [("Access-Control-Allow-Origin", "*"),
     ("Access-Control-Allow-Methods", "POST, OPTIONS"),
     ("Access-Control-Allow-Headers", "Content-Type")]⟩

/-- Embeds the OPTIONS preflight block of the PHP variant (part_002 lines
7-17): the globally set headers plus `http_response_code(200)` and an `exit`
with an empty body. -/
def phpPreflightResponse : PreflightResponse :=
  ⟨200, none,
    [("Content-Type", "application/json; charset=utf-8"),
     ("Access-Control-Allow-Origin", "*"),
     ("Access-Control-Allow-Methods", "POST"),
     ("Access-Control-Allow-Headers", "Content-Type")]⟩

/-- A form that is valid for every validator variant. -/
def sampleValidForm : RawForm :=
  ⟨"Max", "Muster", "max@example.ch",
   "Hallo, dies ist eine ausreichend lange Nachricht.", "ja", "", ""⟩

/-- A bot-like form: invalid fields but a filled honeypot. -/
def sampleBotForm : RawForm := ⟨"", "", "bad", "", "", "ich bin ein Bot", ""⟩

/-- A form whose honeypot and first name consist only of whitespace. -/
def sampleWsForm : RawForm :=
  ⟨"\t ", "Muster", "max@example.ch", "Hallo, dies ist eine Nachricht.", "ja", "   ", ""⟩

/-- A form that satisfies every rule except the strict minimum message
length of contact.js. -/
def shortMsgForm : RawForm := ⟨"Max", "Muster", "max@example.ch", "Hallo", "ja", "", ""⟩

/-- A part_000 environment with a configured Resend key. -/
def sampleEnvP000 : P000Env := ⟨none, some "key-123", none, none, none⟩

/-- A contact.js environment with no reCAPTCHA secret and no MailChannels
key. -/
def sampleEnvCjs : CjsEnv := ⟨none, none, none, none, none⟩

/-- The all-empty submission. -/
def sampleEmptyForm : RawForm := ⟨"", "", "", "", "", "", ""⟩

/-- Data of an appended string is the appended data. -/
theorem strData_append (s t : String) : (s ++ t).data = s.data ++ t.data := rfl

/-- Trimming a string made of whitespace only yields the empty string. -/
theorem jsTrim_eq_empty_of_ws (s : String) (h : ∀ c ∈ s.data, c.isWhitespace = true) :
    jsTrim s = "" := by
  unfold jsTrim trimChars
  rw [List.dropWhile_eq_nil_iff.mpr h]
  rfl

/-- A string whose left part has nonempty data is nonempty. -/
theorem append_ne_empty (s t : String) (h : s.data ≠ []) : s ++ t ≠ "" := by
  intro hEq
  have h4 := congrArg String.data hEq
  rw [strData_append] at h4
  have h2 : s.data ++ t.data = [] := h4
  exact h (List.append_eq_nil.mp h2).1

/-- A list containing an extension of a needle contains the needle. -/
theorem listContains_left_of_append (hay p q : List Char)
    (h : listContains hay (p ++ q) = true) : listContains hay p = true := by
  simp only [listContains] at h ⊢
  rw [List.any_eq_true] at h ⊢
  obtain ⟨i, hi, hit⟩ := h
  refine ⟨i, hi, ?_⟩
  rw [beq_iff_eq] at hit ⊢
  have h2 := congrArg (List.take p.length) hit
  rwa [List.take_take, List.length_append, inf_eq_left.mpr (Nat.le_add_right _ _),
    List.take_left] at h2

/-- Not containing a needle rules out containing any extension of it. -/
theorem listContains_append_false (hay p q : List Char)
    (h : listContains hay p = false) : listContains hay (p ++ q) = false := by
  cases hc : listContains hay (p ++ q) with
  | false => rfl
  | true => exact absurd (listContains_left_of_append hay p q hc) (by simp [h])

/-- Replacing a character everywhere removes it, provided the replacement
does not reintroduce it. -/
theorem replaceAllChar_not_mem_self (c : Char) (rep : List Char) (hr : c ∉ rep) :
    ∀ l : List Char, c ∉ replaceAllChar c rep l := by
  intro l
  induction l with
  | nil => simp [replaceAllChar]
  | cons x xs ih =>
      intro hmem
      simp only [replaceAllChar] at hmem
      rcases List.mem_append.mp hmem with h | h
      · split at h
        · exact hr h
        · rename_i hx
          rw [List.mem_singleton] at h
          subst h
          exact hx (beq_self_eq_true c)
      · exact ih h

/-- Replacement of another character preserves the absence of a character
the replacement list does not contain. -/
theorem replaceAllChar_not_mem (c d : Char) (rep : List Char) (hr : c ∉ rep) :
    ∀ l : List Char, c ∉ l → c ∉ replaceAllChar d rep l := by
  intro l
  induction l with
  | nil => intro _; simp [replaceAllChar]
  | cons x xs ih =>
      intro hl hmem
      simp only [replaceAllChar] at hmem
      rcases List.mem_append.mp hmem with h | h
      · split at h
        · exact hr h
        · rw [List.mem_singleton] at h
          exact hl (by rw [h]; exact List.mem_cons_self x xs)
      · exact ih (fun hc => hl (List.mem_cons_of_mem x hc)) h

/-- An empty trimmed first name puts its error into the part_000 list. -/
theorem vorname_mem_p000 (f : RawForm) (h : jsTrim f.vorname = "") :
    vornameErrMsg ∈ p000Errors f := by
  unfold p000Errors
  refine List.mem_append_left _ (List.mem_append_left _ (List.mem_append_left _
    (List.mem_append_left _ ?_)))
  rw [if_pos h]
  exact List.mem_singleton_self _

/-- An empty trimmed first name puts its error into the contact.js list. -/
theorem vorname_mem_cjs (f : RawForm) (h : jsTrim f.vorname = "") :
    vornameErrMsg ∈ cjsErrors f := by
  unfold cjsErrors
  refine List.mem_append_left _ (List.mem_append_left _ (List.mem_append_left _
    (List.mem_append_left _ (List.mem_append_left _ ?_))))
  rw [if_pos h]
  exact List.mem_singleton_self _

/-- An empty trimmed last name puts its error into the part_000 list. -/
theorem nachname_mem_p000 (f : RawForm) (h : jsTrim f.nachname = "") :
    nachnameErrMsg ∈ p000Errors f := by
  unfold p000Errors
  refine List.mem_append_left _ (List.mem_append_left _ (List.mem_append_left _
    (List.mem_append_right _ ?_)))
  rw [if_pos h]
  exact List.mem_singleton_self _

/-- An empty trimmed last name puts its error into the contact.js list. -/
theorem nachname_mem_cjs (f : RawForm) (h : jsTrim f.nachname = "") :
    nachnameErrMsg ∈ cjsErrors f := by
  unfold cjsErrors
  refine List.mem_append_left _ (List.mem_append_left _ (List.mem_append_left _
    (List.mem_append_left _ (List.mem_append_right _ ?_))))
  rw [if_pos h]
  exact List.mem_singleton_self _

/-- A missing or malformed email puts its error into the part_000 list. -/
theorem email_mem_p000 (f : RawForm)
    (h : jsTrim f.email = "" ∨ emailRegexTest (jsTrim f.email) = false) :
    emailErrMsg ∈ p000Errors f := by
  unfold p000Errors
  refine List.mem_append_left _ (List.mem_append_left _ (List.mem_append_right _ ?_))
  rw [if_pos h]
  exact List.mem_singleton_self _

/-- A missing or malformed email puts its error into the contact.js list. -/
theorem email_mem_cjs (f : RawForm)
    (h : jsTrim f.email = "" ∨ emailRegexTest (jsTrim f.email) = false) :
    emailErrMsg ∈ cjsErrors f := by
  unfold cjsErrors
  refine List.mem_append_left _ (List.mem_append_left _ (List.mem_append_left _
    (List.mem_append_right _ ?_)))
  rw [if_pos h]
  exact List.mem_singleton_self _

/-- An empty trimmed message puts its error into the part_000 list. -/
theorem message_mem_p000 (f : RawForm) (h : jsTrim f.message = "") :
    messageErrMsg ∈ p000Errors f := by
  unfold p000Errors
  refine List.mem_append_left _ (List.mem_append_right _ ?_)
  rw [if_pos h]
  exact List.mem_singleton_self _

/-- An empty trimmed message puts its error into the contact.js list. -/
theorem message_mem_cjs (f : RawForm) (h : jsTrim f.message = "") :
    messageErrMsg ∈ cjsErrors f := by
  unfold cjsErrors
  refine List.mem_append_left _ (List.mem_append_left _ (List.mem_append_right _ ?_))
  rw [if_pos h]
  exact List.mem_singleton_self _

/-- An empty trimmed consent flag puts its error into the part_000 list. -/
theorem privacy_mem_p000 (f : RawForm) (h : jsTrim f.privacy = "") :
    privacyErrMsg ∈ p000Errors f := by
  unfold p000Errors
  refine List.mem_append_right _ ?_
  rw [if_pos h]
  exact List.mem_singleton_self _

/-- An empty trimmed consent flag puts its error into the contact.js list. -/
theorem privacy_mem_cjs (f : RawForm) (h : jsTrim f.privacy = "") :
    privacyErrMsg ∈ cjsErrors f := by
  unfold cjsErrors
  refine List.mem_append_right _ ?_
  rw [if_pos h]
  exact List.mem_singleton_self _

/-- C1: a submission whose trimmed honeypot field is non-empty is answered
with HTTP 200, success true and no details (the same shape as a genuine
success response), whatever the other fields contain, and neither a
mail-provider call nor a bot-verification call is issued. -/
theorem honeypot_short_circuit (f : RawForm) (env : CjsEnv) (rcFetch : RcFetch)
    (mcFetch mcFetch2 : FetchOutcome) (h : jsTrim f.website ≠ "") :
    cjsPost f env rcFetch mcFetch = ⟨⟨200, true, honeypotSuccessMsg, none⟩, []⟩ ∧
    part004Post f mcFetch2 = ⟨⟨200, true, honeypotSuccessMsg, none⟩, []⟩ := by
  constructor
  · simp only [cjsPost]
    rw [if_pos h]
  · simp only [part004Post]
    rw [if_pos h]

/-- Witness for C1 at a concrete bot submission with invalid fields. -/
theorem honeypot_short_circuit_witness :
    cjsPost sampleBotForm sampleEnvCjs (RcFetch.response 200 ⟨true, none, "kontaktformular"⟩)
        (FetchOutcome.response 500 "x") = ⟨⟨200, true, honeypotSuccessMsg, none⟩, []⟩ ∧
    part004Post sampleBotForm (FetchOutcome.response 500 "x") =
      ⟨⟨200, true, honeypotSuccessMsg, none⟩, []⟩ :=
  honeypot_short_circuit sampleBotForm sampleEnvCjs _ _ _ (by decide)

/-- C2: in both pipelines, an external HTTP call is only ever issued for a
submission whose collected validation error list is empty. -/
theorem provider_call_requires_valid (f g : RawForm) (env : P000Env) (env2 : CjsEnv)
    (r1 r2 : FetchOutcome) (rcF : RcFetch) (mcF : FetchOutcome) (c c' : ProviderCall)
    (h1 : c ∈ (part000Post f env r1 r2).calls)
    (h2 : c' ∈ (cjsPost g env2 rcF mcF).calls) :
    p000Errors f = [] ∧ cjsErrors g = [] := by
  constructor
  · by_cases hw : jsTrim f.website ≠ ""
    · simp only [part000Post] at h1
      rw [if_pos hw] at h1
      simp at h1
    · simp only [part000Post] at h1
      rw [if_neg hw] at h1
      by_cases he : p000Errors f ≠ []
      · rw [if_pos he] at h1
        simp at h1
      · exact not_ne_iff.mp he
  · by_cases hw : jsTrim g.website ≠ ""
    · simp only [cjsPost] at h2
      rw [if_pos hw] at h2
      simp at h2
    · simp only [cjsPost] at h2
      rw [if_neg hw] at h2
      by_cases he : cjsErrors g ≠ []
      · rw [if_pos he] at h2
        simp at h2
      · exact not_ne_iff.mp he

/-- Witness for C2: a valid submission on which both pipelines issue a
provider call. -/
theorem provider_call_requires_valid_witness :
    p000Errors sampleValidForm = [] ∧ cjsErrors sampleValidForm = [] :=
  provider_call_requires_valid sampleValidForm sampleValidForm sampleEnvP000 sampleEnvCjs
    (FetchOutcome.response 200 "") (FetchOutcome.response 200 "")
    (RcFetch.response 200 ⟨true, none, ""⟩) (FetchOutcome.response 200 "")
    ProviderCall.resend ProviderCall.mailchannels (by decide) (by decide)

/-- C5: the validators collect every applicable error independently: each
empty required field contributes its own error string, and an empty first
name together with an empty email yields both errors, not just one. -/
theorem validator_collects_all_errors (f : RawForm) :
    (jsTrim f.vorname = "" → vornameErrMsg ∈ p000Errors f ∧ vornameErrMsg ∈ cjsErrors f) ∧
    (jsTrim f.nachname = "" → nachnameErrMsg ∈ p000Errors f ∧ nachnameErrMsg ∈ cjsErrors f) ∧
    (jsTrim f.email = "" → emailErrMsg ∈ p000Errors f ∧ emailErrMsg ∈ cjsErrors f) ∧
    (jsTrim f.message = "" → messageErrMsg ∈ p000Errors f ∧ messageErrMsg ∈ cjsErrors f) ∧
    (jsTrim f.privacy = "" → privacyErrMsg ∈ p000Errors f ∧ privacyErrMsg ∈ cjsErrors f) ∧
    (jsTrim f.vorname = "" ∧ jsTrim f.email = "" →
      vornameErrMsg ∈ cjsErrors f ∧ emailErrMsg ∈ cjsErrors f) :=
  ⟨fun h => ⟨vorname_mem_p000 f h, vorname_mem_cjs f h⟩,
   fun h => ⟨nachname_mem_p000 f h, nachname_mem_cjs f h⟩,
   fun h => ⟨email_mem_p000 f (Or.inl h), email_mem_cjs f (Or.inl h)⟩,
   fun h => ⟨message_mem_p000 f h, message_mem_cjs f h⟩,
   fun h => ⟨privacy_mem_p000 f h, privacy_mem_cjs f h⟩,
   fun h => ⟨vorname_mem_cjs f h.1, email_mem_cjs f (Or.inl h.2)⟩⟩

/-- Witness for C5 at the all-empty submission. -/
theorem validator_collects_all_errors_witness :
    (vornameErrMsg ∈ cjsErrors sampleEmptyForm ∧ emailErrMsg ∈ cjsErrors sampleEmptyForm) ∧
    (messageErrMsg ∈ p000Errors sampleEmptyForm ∧ messageErrMsg ∈ cjsErrors sampleEmptyForm) :=
  ⟨(validator_collects_all_errors sampleEmptyForm).2.2.2.2.2 ⟨by decide, by decide⟩,
   (validator_collects_all_errors sampleEmptyForm).2.2.2.1 (by decide)⟩

/-- C6 counterexample: a submission with every required field non-empty,
a well-formed email and consent given, whose message is shorter than 10
characters, is still rejected by the contact.js validator. -/
theorem strict_validator_rejects_short_message :
    jsTrim shortMsgForm.vorname ≠ "" ∧ jsTrim shortMsgForm.nachname ≠ "" ∧
    jsTrim shortMsgForm.email ≠ "" ∧ emailRegexTest (jsTrim shortMsgForm.email) = true ∧
    jsTrim shortMsgForm.message ≠ "" ∧ jsTrim shortMsgForm.privacy ≠ "" ∧
    cjsErrors shortMsgForm ≠ [] := by decide

/-- C6 (amended): a submission with all required fields non-empty after
trimming, a well-formed email and a truthy consent flag gets an empty error
list from the part_000 validator, and from the stricter contact.js validator
as soon as the trimmed message is at least 10 characters long. -/
theorem valid_submission_empty_errors (f : RawForm)
    (h1 : jsTrim f.vorname ≠ "") (h2 : jsTrim f.nachname ≠ "")
    (h3 : jsTrim f.email ≠ "") (h4 : emailRegexTest (jsTrim f.email) = true)
    (h5 : jsTrim f.message ≠ "") (h6 : jsTrim f.privacy ≠ "") :
    p000Errors f = [] ∧ (10 ≤ (jsTrim f.message).length → cjsErrors f = []) := by
  constructor
  · simp [p000Errors, h1, h2, h3, h4, h5, h6]
  · intro h10
    simp [cjsErrors, h1, h2, h3, h4, h5, h6, Nat.not_lt.mpr h10]

/-- Witness for the amended C6 at a concrete fully valid submission. -/
theorem valid_submission_empty_errors_witness :
    p000Errors sampleValidForm = [] ∧ cjsErrors sampleValidForm = [] := by
  have h := valid_submission_empty_errors sampleValidForm (by decide) (by decide)
    (by decide) (by decide) (by decide) (by decide)
  exact ⟨h.1, h.2 (by decide)⟩

/-- C9 counterexample: the preflight block of the PHP variant answers an
OPTIONS request with HTTP 200, not 204. -/
theorem php_preflight_status_not_204 :
    phpPreflightResponse.status = 200 ∧ phpPreflightResponse.status ≠ 204 := by decide

/-- C9 (amended): the JavaScript handlers answer OPTIONS with 204, an empty
body and the three CORS headers, while the PHP variant's preflight answers
200, likewise with an empty body and the three CORS headers. -/
theorem preflight_responses :
    cjsOnRequestOptions.status = 204 ∧ cjsOnRequestOptions.body = none ∧
    ("Access-Control-Allow-Origin", "*") ∈ cjsOnRequestOptions.headers ∧
    ("Access-Control-Allow-Methods", "POST, OPTIONS") ∈ cjsOnRequestOptions.headers ∧
    ("Access-Control-Allow-Headers", "Content-Type, Accept") ∈ cjsOnRequestOptions.headers ∧
    part000OnRequestOptions.status = 204 ∧ part000OnRequestOptions.body = none ∧
    ("Access-Control-Allow-Origin", "*") ∈ part000OnRequestOptions.headers ∧
    ("Access-Control-Allow-Methods", "POST, OPTIONS") ∈ part000OnRequestOptions.headers ∧
    ("Access-Control-Allow-Headers", "Content-Type") ∈ part000OnRequestOptions.headers ∧
    phpPreflightResponse.status = 200 ∧ phpPreflightResponse.body = none ∧
    ("Access-Control-Allow-Origin", "*") ∈ phpPreflightResponse.headers ∧
    ("Access-Control-Allow-Methods", "POST") ∈ phpPreflightResponse.headers ∧
    ("Access-Control-Allow-Headers", "Content-Type") ∈ phpPreflightResponse.headers := by
  decide

/-- C10: all fields are trimmed before any check, so a whitespace-only
honeypot does not trigger the spam short-circuit and a whitespace-only
required field counts as empty: both handlers proceed to validation and
answer 422 with the first-name error collected and no external call. -/
theorem whitespace_only_fields (f : RawForm) (env : P000Env) (env2 : CjsEnv)
    (r1 r2 mcF : FetchOutcome) (rcF : RcFetch)
    (hws : ∀ c ∈ f.website.data, c.isWhitespace = true)
    (hvs : ∀ c ∈ f.vorname.data, c.isWhitespace = true) :
    jsTrim f.website = "" ∧ jsTrim f.vorname = "" ∧
    vornameErrMsg ∈ p000Errors f ∧ vornameErrMsg ∈ cjsErrors f ∧
    part000Post f env r1 r2 = ⟨⟨422, false, joinSep " " (p000Errors f), none⟩, []⟩ ∧
    cjsPost f env2 rcF mcF = ⟨⟨422, false, joinSep " " (cjsErrors f), none⟩, []⟩ := by
  have hw : jsTrim f.website = "" := jsTrim_eq_empty_of_ws _ hws
  have hv : jsTrim f.vorname = "" := jsTrim_eq_empty_of_ws _ hvs
  have hm1 : vornameErrMsg ∈ p000Errors f := vorname_mem_p000 f hv
  have hm2 : vornameErrMsg ∈ cjsErrors f := vorname_mem_cjs f hv
  refine ⟨hw, hv, hm1, hm2, ?_, ?_⟩
  · simp only [part000Post]
    rw [if_neg (by simp [hw]), if_pos (List.ne_nil_of_mem hm1)]
  · simp only [cjsPost]
    rw [if_neg (by simp [hw]), if_pos (List.ne_nil_of_mem hm2)]

/-- Witness for C10 at a submission with whitespace-only honeypot and first
name. -/
theorem whitespace_only_fields_witness :
    jsTrim sampleWsForm.website = "" ∧ jsTrim sampleWsForm.vorname = "" ∧
    vornameErrMsg ∈ p000Errors sampleWsForm ∧ vornameErrMsg ∈ cjsErrors sampleWsForm ∧
    part000Post sampleWsForm sampleEnvP000 (FetchOutcome.response 200 "")
        (FetchOutcome.response 200 "") =
      ⟨⟨422, false, joinSep " " (p000Errors sampleWsForm), none⟩, []⟩ ∧
    cjsPost sampleWsForm sampleEnvCjs (RcFetch.response 200 ⟨true, none, ""⟩)
        (FetchOutcome.response 200 "") =
      ⟨⟨422, false, joinSep " " (cjsErrors sampleWsForm), none⟩, []⟩ :=
  whitespace_only_fields sampleWsForm sampleEnvP000 sampleEnvCjs
    (FetchOutcome.response 200 "") (FetchOutcome.response 200 "")
    (FetchOutcome.response 200 "") (RcFetch.response 200 ⟨true, none, ""⟩)
    (by decide) (by decide)

/-- C3: with a configured Resend key, a 401 from the primary provider and a
202 from the MailChannels fallback, the dispatcher stops at the fallback's
success: the response is HTTP 200 with success true and the thank-you
message, exactly one call per provider was made, and the primary failure
reason does not appear in the user-facing message. -/
theorem fallback_success_hides_primary_failure (f : RawForm) (env : P000Env)
    (key b1 b2 : String)
    (hw : jsTrim f.website = "") (he : p000Errors f = [])
    (hk : env.RESEND_API_KEY = some key) (hk2 : key ≠ "") :
    part000Post f env (FetchOutcome.response 401 b1) (FetchOutcome.response 202 b2) =
      ⟨⟨200, true, thankYouMsg, none⟩, [ProviderCall.resend, ProviderCall.mailchannels]⟩ ∧
    listContains thankYouMsg.data
      (((sendViaResend env.RESEND_API_KEY (FetchOutcome.response 401 b1)).reason.getD "").data)
      = false := by
  have hkey : ¬(env.RESEND_API_KEY = none ∨ env.RESEND_API_KEY = some "") := by
    rw [hk]
    simp [hk2]
  have hres : sendViaResend env.RESEND_API_KEY (FetchOutcome.response 401 b1) =
      ⟨false, some ("Resend " ++ (Nat.repr 401 ++ (": " ++ sanitizeErrorText b1)))⟩ := by
    simp [sendViaResend, hkey]
  have hmc : sendViaMailChannels env.MAILCHANNELS_API_KEY (FetchOutcome.response 202 b2) =
      ⟨true, none⟩ := by
    simp [sendViaMailChannels]
  constructor
  · simp only [part000Post]
    rw [if_neg (by simp [hw]), if_neg (by simp [he])]
    simp only [part000Delivery, hres, hmc]
    rw [if_neg hkey]
    simp
  · rw [hres]
    have hgd : ((some ("Resend " ++ (Nat.repr 401 ++ (": " ++ sanitizeErrorText b1)))).getD
        ("" : String)) = "Resend " ++ (Nat.repr 401 ++ (": " ++ sanitizeErrorText b1)) := rfl
    rw [hgd, strData_append]
    exact listContains_append_false _ _ _ (by decide)

/-- Witness for C3 at a concrete valid submission and provider bodies. -/
theorem fallback_success_hides_primary_failure_witness :
    part000Post sampleValidForm sampleEnvP000 (FetchOutcome.response 401 "Unauthorized")
        (FetchOutcome.response 202 "") =
      ⟨⟨200, true, thankYouMsg, none⟩, [ProviderCall.resend, ProviderCall.mailchannels]⟩ ∧
    listContains thankYouMsg.data
      (((sendViaResend sampleEnvP000.RESEND_API_KEY
          (FetchOutcome.response 401 "Unauthorized")).reason.getD "").data) = false :=
  fallback_success_hides_primary_failure sampleValidForm sampleEnvP000 "key-123"
    "Unauthorized" "" (by decide) (by decide) (by decide) (by decide)

/-- C4: with a configured Resend key and both providers answering 500, the
response is HTTP 500 with success false, the details field is the two
sanitized provider reasons joined by the separator, and neither reason
appears in the user-facing message. -/
theorem all_providers_fail_details (f : RawForm) (env : P000Env) (key b1 b2 : String)
    (hw : jsTrim f.website = "") (he : p000Errors f = [])
    (hk : env.RESEND_API_KEY = some key) (hk2 : key ≠ "") :
    part000Post f env (FetchOutcome.response 500 b1) (FetchOutcome.response 500 b2) =
      ⟨⟨500, false, deliveryFailedMsg,
          some (("Resend " ++ (Nat.repr 500 ++ (": " ++ sanitizeErrorText b1))) ++ " | " ++
                ("MailChannels " ++ (Nat.repr 500 ++ (": " ++ sanitizeErrorText b2))))⟩,
        [ProviderCall.resend, ProviderCall.mailchannels]⟩ ∧
    listContains deliveryFailedMsg.data
        ("Resend " ++ (Nat.repr 500 ++ (": " ++ sanitizeErrorText b1))).data = false ∧
    listContains deliveryFailedMsg.data
        ("MailChannels " ++ (Nat.repr 500 ++ (": " ++ sanitizeErrorText b2))).data = false := by
  have hkey : ¬(env.RESEND_API_KEY = none ∨ env.RESEND_API_KEY = some "") := by
    rw [hk]
    simp [hk2]
  have hres : sendViaResend env.RESEND_API_KEY (FetchOutcome.response 500 b1) =
      ⟨false, some ("Resend " ++ (Nat.repr 500 ++ (": " ++ sanitizeErrorText b1)))⟩ := by
    simp [sendViaResend, hkey]
  have hmc : sendViaMailChannels env.MAILCHANNELS_API_KEY (FetchOutcome.response 500 b2) =
      ⟨false, some ("MailChannels " ++ (Nat.repr 500 ++ (": " ++ sanitizeErrorText b2)))⟩ := by
    simp [sendViaMailChannels]
  have hr1 : ("Resend " ++ (Nat.repr 500 ++ (": " ++ sanitizeErrorText b1))) ≠ "" :=
    append_ne_empty _ _ (by decide)
  have hr2 : ("MailChannels " ++ (Nat.repr 500 ++ (": " ++ sanitizeErrorText b2))) ≠ "" :=
    append_ne_empty _ _ (by decide)
  refine ⟨?_, ?_, ?_⟩
  · simp only [part000Post]
    rw [if_neg (by simp [hw]), if_neg (by simp [he])]
    simp only [part000Delivery, hres, hmc]
    rw [if_neg hkey]
    simp [filterTruthy, joinSep, hr1, hr2]
  · rw [strData_append]
    exact listContains_append_false _ _ _ (by decide)
  · rw [strData_append]
    exact listContains_append_false _ _ _ (by decide)

/-- Witness for C4 at a concrete valid submission and provider bodies. -/
theorem all_providers_fail_details_witness :
    part000Post sampleValidForm sampleEnvP000 (FetchOutcome.response 500 "err1")
        (FetchOutcome.response 500 "err2") =
      ⟨⟨500, false, deliveryFailedMsg,
          some (("Resend " ++ (Nat.repr 500 ++ (": " ++ sanitizeErrorText "err1"))) ++ " | " ++
                ("MailChannels " ++ (Nat.repr 500 ++ (": " ++ sanitizeErrorText "err2"))))⟩,
        [ProviderCall.resend, ProviderCall.mailchannels]⟩ ∧
    listContains deliveryFailedMsg.data
        ("Resend " ++ (Nat.repr 500 ++ (": " ++ sanitizeErrorText "err1"))).data = false ∧
    listContains deliveryFailedMsg.data
        ("MailChannels " ++ (Nat.repr 500 ++ (": " ++ sanitizeErrorText "err2"))).data = false :=
  all_providers_fail_details sampleValidForm sampleEnvP000 "key-123" "err1" "err2"
    (by decide) (by decide) (by decide) (by decide)

/-- C7 counterexample: in contact.js the MailChannels fetch is not wrapped at
the call site, so a network exception on a fully valid submission is handled
by the generic top-level exception handler, which answers 500 with the
generic message and the stringified exception in details. -/
theorem cjs_network_error_reaches_top_handler :
    cjsPost sampleValidForm sampleEnvCjs (RcFetch.response 200 ⟨true, none, "kontaktformular"⟩)
        (FetchOutcome.netError "TypeError: Failed to fetch") =
      ⟨⟨500, false, runtimeErrMsg, some "Runtime: TypeError: Failed to fetch"⟩,
        [ProviderCall.mailchannels]⟩ := by decide

/-- C7 (amended): in the multi-provider handler (part_000) a network
exception in either provider call is caught at the call site and converted
into a failure reason on a non-ok result, and the handler answers with the
aggregated delivery-failure response, not with the generic top-level error
response; in contact.js the exception instead reaches the top-level
handler. -/
theorem provider_exceptions_caught_locally (f : RawForm) (env : P000Env) (key e1 e2 : String)
    (hw : jsTrim f.website = "") (he : p000Errors f = [])
    (hk : env.RESEND_API_KEY = some key) (hk2 : key ≠ "") :
    sendViaResend env.RESEND_API_KEY (FetchOutcome.netError e1) =
      ⟨false, some ("Resend request failed: " ++ e1)⟩ ∧
    sendViaMailChannels env.MAILCHANNELS_API_KEY (FetchOutcome.netError e2) =
      ⟨false, some ("MailChannels request failed: " ++ e2)⟩ ∧
    part000Post f env (FetchOutcome.netError e1) (FetchOutcome.netError e2) =
      ⟨⟨500, false, deliveryFailedMsg,
          some (("Resend request failed: " ++ e1) ++ " | " ++
                ("MailChannels request failed: " ++ e2))⟩,
        [ProviderCall.resend, ProviderCall.mailchannels]⟩ ∧
    runtimeErrMsg ≠ deliveryFailedMsg := by
  have hkey : ¬(env.RESEND_API_KEY = none ∨ env.RESEND_API_KEY = some "") := by
    rw [hk]
    simp [hk2]
  have hres : sendViaResend env.RESEND_API_KEY (FetchOutcome.netError e1) =
      ⟨false, some ("Resend request failed: " ++ e1)⟩ := by
    simp [sendViaResend, hkey]
  have hmc : sendViaMailChannels env.MAILCHANNELS_API_KEY (FetchOutcome.netError e2) =
      ⟨false, some ("MailChannels request failed: " ++ e2)⟩ := rfl
  have hr1 : ("Resend request failed: " ++ e1) ≠ "" := append_ne_empty _ _ (by decide)
  have hr2 : ("MailChannels request failed: " ++ e2) ≠ "" := append_ne_empty _ _ (by decide)
  refine ⟨hres, hmc, ?_, by decide⟩
  simp only [part000Post]
  rw [if_neg (by simp [hw]), if_neg (by simp [he])]
  simp only [part000Delivery, hres, hmc]
  rw [if_neg hkey]
  simp [filterTruthy, joinSep, hr1, hr2]

/-- Witness for the amended C7 at a concrete valid submission. -/
theorem provider_exceptions_caught_locally_witness :
    sendViaResend sampleEnvP000.RESEND_API_KEY (FetchOutcome.netError "boom1") =
      ⟨false, some ("Resend request failed: " ++ "boom1")⟩ ∧
    sendViaMailChannels sampleEnvP000.MAILCHANNELS_API_KEY (FetchOutcome.netError "boom2") =
      ⟨false, some ("MailChannels request failed: " ++ "boom2")⟩ ∧
    part000Post sampleValidForm sampleEnvP000 (FetchOutcome.netError "boom1")
        (FetchOutcome.netError "boom2") =
      ⟨⟨500, false, deliveryFailedMsg,
          some (("Resend request failed: " ++ "boom1") ++ " | " ++
                ("MailChannels request failed: " ++ "boom2"))⟩,
        [ProviderCall.resend, ProviderCall.mailchannels]⟩ ∧
    runtimeErrMsg ≠ deliveryFailedMsg :=
  provider_exceptions_caught_locally sampleValidForm sampleEnvP000 "key-123" "boom1" "boom2"
    (by decide) (by decide) (by decide) (by decide)

/-- C8: interpolating the message into the HTML body escapes the markup of
the script payload into entities and never leaves executable markup: the
escaped output of any string contains no angle brackets at all, and newlines
are turned into line-break tags only after escaping. -/
theorem html_escaping_for_message :
    messageHtmlValue "<script>alert(1)</script>" = "&lt;script&gt;alert(1)&lt;/script&gt;" ∧
    (∀ s : String, '<' ∉ (escapeHtml s).data ∧ '>' ∉ (escapeHtml s).data) ∧
    messageHtmlValue "a\nb" = "a<br>b" ∧
    messageHtmlValue "<\n>" = "&lt;<br>&gt;" := by
  refine ⟨by decide, ?_, by decide, by decide⟩
  intro s
  constructor
  · show '<' ∉ escapeHtmlChars s.data
    unfold escapeHtmlChars
    refine replaceAllChar_not_mem _ _ _ (by decide) _ ?_
    refine replaceAllChar_not_mem _ _ _ (by decide) _ ?_
    refine replaceAllChar_not_mem _ _ _ (by decide) _ ?_
    exact replaceAllChar_not_mem_self _ _ (by decide) _
  · show '>' ∉ escapeHtmlChars s.data
    unfold escapeHtmlChars
    refine replaceAllChar_not_mem _ _ _ (by decide) _ ?_
    refine replaceAllChar_not_mem _ _ _ (by decide) _ ?_
    exact replaceAllChar_not_mem_self _ _ (by decide) _
